import Mathlib

/-!
Shallow embedding of the workspace/session orchestration core of
`src/src-tauri/src/workspaces/commands.rs`.

Each Tauri command is translated into a Lean function over an explicit
application state (the in-memory workspace registry, the session map and
the persisted workspace list) together with an environment of external
oracles (the Git gateway, the filesystem, the session spawner, the remote
forwarding backend).  Every externally visible effect is additionally
recorded in an event trace so that temporal and frame properties can be
stated about the order of effects.
-/

deriving instance DecidableEq for Except

namespace CodexMonitor

/-- Kind of a workspace entry (`WorkspaceKind` in types.rs, mirrored from
its use in commands.rs: the only operation used is `is_worktree`). -/
inductive WorkspaceKind
  | main
  | worktree
deriving DecidableEq, Repr

/-- `WorkspaceKind::is_worktree`. -/
def WorkspaceKind.is_worktree : WorkspaceKind → Bool
  | .main => false
  | .worktree => true

/-- `WorktreeInfo` (types.rs): the branch carried by a worktree entry. -/
structure WorktreeInfo where
  branch : String
deriving DecidableEq, Repr

/-- Modelled from the spec: `WorkspaceSettings` (types.rs, not under src/)
carries an optional home-directory override, optional extra launch
arguments and an optional group id (spec section 3). -/
structure WorkspaceSettings where
  codex_home : Option String
  codex_args : Option (List String)
  group_id : Option String
deriving DecidableEq, Repr

/-- Modelled from the spec: `WorkspaceSettings::default()` leaves every
optional override unset. -/
def WorkspaceSettings.default : WorkspaceSettings :=
  { codex_home := none, codex_args := none, group_id := none }

/-- `WorkspaceEntry` (types.rs), exactly the fields commands.rs touches. -/
structure WorkspaceEntry where
  id : String
  name : String
  path : String
  codex_bin : Option String
  kind : WorkspaceKind
  parent_id : Option String
  worktree : Option WorktreeInfo
  settings : WorkspaceSettings
deriving DecidableEq, Repr

/-- `WorkspaceInfo` (types.rs): the value returned to the GUI layer. -/
structure WorkspaceInfo where
  id : String
  name : String
  path : String
  codex_bin : Option String
  connected : Bool
  kind : WorkspaceKind
  parent_id : Option String
  worktree : Option WorktreeInfo
  settings : WorkspaceSettings
deriving DecidableEq, Repr

/-- Rust `str::trim`, implemented on the character list so that concrete
instances reduce in the kernel. -/
def trimStr (s : String) : String :=
  ⟨((s.data.dropWhile Char.isWhitespace).reverse.dropWhile
      Char.isWhitespace).reverse⟩

/-- Whether the second list is an initial segment of the first. -/
def startsWithChars : List Char → List Char → Bool
  | _, [] => true
  | [], _ :: _ => false
  | c :: cs, p :: ps => c = p && startsWithChars cs ps

/-- Whether the second list occurs inside the first (Rust
`str::contains`). -/
def containsChars : List Char → List Char → Bool
  | [], pat => pat.isEmpty
  | c :: cs, pat => startsWithChars (c :: cs) pat || containsChars cs pat

/-- Rust `slice::split(|byte| *byte == 0)` on the output bytes of
`git ls-files -z` (bytes modelled as characters). -/
def splitOnZero : List Char → List String
  | [] => [""]
  | c :: cs =>
    if c = Char.ofNat 0 then
      "" :: splitOnZero cs
    else
      match splitOnZero cs with
      | [] => [⟨[c]⟩]
      | p :: rest => (⟨c :: p.data⟩) :: rest

/-- Registry lookup, `workspaces.get(&id)` on the keyed map. -/
def wsGet (m : List WorkspaceEntry) (id : String) : Option WorkspaceEntry :=
  m.find? (fun e => decide (e.id = id))

/-- Registry insert, `workspaces.insert(id, entry)`: replaces the entry
with the same id when present, otherwise appends. -/
def wsInsert (m : List WorkspaceEntry) (e : WorkspaceEntry) : List WorkspaceEntry :=
  if m.any (fun x => decide (x.id = e.id)) then
    m.map (fun x => if x.id = e.id then e else x)
  else
    m ++ [e]

/-- Registry removal, `workspaces.remove(&id)`. -/
def wsRemove (m : List WorkspaceEntry) (id : String) : List WorkspaceEntry :=
  m.filter (fun e => decide (e.id ≠ id))

/-- In-place mutation through `workspaces.get_mut(&id)`. -/
def wsModify (m : List WorkspaceEntry) (id : String)
    (f : WorkspaceEntry → WorkspaceEntry) : List WorkspaceEntry :=
  m.map (fun e => if e.id = id then f e else e)

/-- Session-map lookup; a session handle is identified by a number. -/
def sLookup (ss : List (String × Nat)) (id : String) : Option Nat :=
  (ss.find? (fun p => decide (p.1 = id))).map (fun p => p.2)

/-- `sessions.contains_key(&id)`. -/
def sContains (ss : List (String × Nat)) (id : String) : Bool :=
  ss.any (fun p => decide (p.1 = id))

/-- Session-map insert (replace when the key is present). -/
def sInsert (ss : List (String × Nat)) (id : String) (sid : Nat) :
    List (String × Nat) :=
  if ss.any (fun p => decide (p.1 = id)) then
    ss.map (fun p => if p.1 = id then (id, sid) else p)
  else
    ss ++ [(id, sid)]

/-- Session-map removal. -/
def sRemove (ss : List (String × Nat)) (id : String) : List (String × Nat) :=
  ss.filter (fun p => decide (p.1 ≠ id))

/-- The mutable application state: the in-memory registry
(`state.workspaces`), the session map (`state.sessions`) and the workspace
list currently persisted on disk (the result of `write_workspaces`). -/
structure AppState where
  workspaces : List WorkspaceEntry
  sessions : List (String × Nat)
  disk : List WorkspaceEntry
deriving DecidableEq, Repr

/-- Externally visible effects, recorded in order of execution. -/
inductive Event
  | gitRun (dir : String) (args : List String)
  | remoteCall (cmd : String) (payload : List String)
  | spawnSession (sid : Nat) (wsId : String)
  | installSession (wsId : String) (sid : Nat)
  | removeSession (wsId : String)
  | killSession (sid : Nat)
  | persist (ids : List String)
  | createDirAll (p : String)
  | removeDirAll (p : String)
deriving DecidableEq, Repr

/-- The environment of external collaborators: the Git gateway (git.rs),
the filesystem, the session spawner (codex.rs), the settings cascade
(codex_home.rs / codex_args.rs), storage (storage.rs) and the remote
backend (remote_backend.rs).  These modules are outside the embedded
source; each is an oracle whose results the commands consume, so theorems
quantify over every possible behaviour of the collaborators. -/
structure Env where
  is_remote_mode : Bool
  remote_info : String → Except String WorkspaceInfo
  remote_info_list : Except String (List WorkspaceInfo)
  remote_unit : String → Except String Unit
  normalize_path_for_remote : String → String
  run_git_command : String → List String → Except String String
  run_git_command_bytes : String → List String → Except String String
  run_git_diff : String → List String → Except String String
  git_apply : String → String → Except String (Bool × String × String)
  is_missing_worktree_error : String → Bool
  git_branch_exists : String → String → Except String Bool
  git_get_origin_url : String → Option String
  unique_branch_name : String → String → Option String → Except String (String × Bool)
  write_workspaces : List WorkspaceEntry → Except String Unit
  spawn_workspace_session :
    WorkspaceEntry → Option String → List String → String → Except String Nat
  fresh_id : String
  is_dir : String → Bool
  path_exists : String → Bool
  create_dir_all : String → Except String Unit
  remove_dir_all : String → Except String Unit
  file_name : String → Option String
  app_data_dir : Except String String
  join_path : String → String → String
  resolve_git_root : WorkspaceEntry → Except String String
  sanitize_worktree_name : String → String
  unique_worktree_path : String → String → String
  unique_worktree_path_for_rename : String → String → String → Except String String
  resolve_workspace_codex_home : WorkspaceEntry → Option WorkspaceEntry → String
  resolve_workspace_codex_args : WorkspaceEntry → Option WorkspaceEntry → List String
  app_settings_codex_bin : Option String
  build_clone_destination_path : String → String → String
  null_device_path : String
  sort_workspaces : List WorkspaceInfo → List WorkspaceInfo

/-- The command monad: state transformer over `AppState` with a `String`
error channel (a Tauri command returns `Result<α, String>`) and an
appended event trace. -/
def M (α : Type) : Type :=
  AppState → Except String α × AppState × List Event

/-- Monadic return: no state change, no events. -/
def M.pure (a : α) : M α := fun s => (.ok a, s, [])

/-- Monadic bind: errors short-circuit (Rust `?` / early `return Err`),
traces concatenate in execution order. -/
def M.bind (x : M α) (f : α → M β) : M β := fun s =>
  match x s with
  | (.ok a, s1, t1) =>
    match f a s1 with
    | (r, s2, t2) => (r, s2, t1 ++ t2)
  | (.error e, s1, t1) => (.error e, s1, t1)

instance : Monad M where
  pure := M.pure
  bind := M.bind

/-- `return Err(e)`. -/
def throwM {α : Type} (e : String) : M α := fun s => (.error e, s, [])

/-- Read the whole state. -/
def getS : M AppState := fun s => (.ok s, s, [])

/-- Apply a state update. -/
def modifyS (f : AppState → AppState) : M Unit := fun s => (.ok (), f s, [])

/-- Record an event. -/
def emitM (ev : Event) : M Unit := fun s => (.ok (), s, [ev])

/-- Lift an oracle result, propagating its error (Rust `?`). -/
def liftE {α : Type} (x : Except String α) : M α := fun s => (x, s, [])

/-- `run_git_command(dir, args).await?`. -/
def runGitM (env : Env) (dir : String) (args : List String) : M String := do
  emitM (.gitRun dir args)
  liftE (env.run_git_command dir args)

/-- `let _ = run_git_command(dir, args).await;` (result discarded). -/
def runGitIgnoreM (env : Env) (dir : String) (args : List String) : M Unit := do
  emitM (.gitRun dir args)
  pure ()

/-- `run_git_command_bytes(dir, args).await?` (bytes modelled as a string). -/
def runGitBytesM (env : Env) (dir : String) (args : List String) : M String := do
  emitM (.gitRun dir args)
  liftE (env.run_git_command_bytes dir args)

/-- `run_git_diff(dir, args).await?`. -/
def runGitDiffM (env : Env) (dir : String) (args : List String) : M String := do
  emitM (.gitRun dir args)
  liftE (env.run_git_diff dir args)

/-- `write_workspaces(&state.storage_path, &list)` where `list` is the
current value list of the registry; returns the error message on failure
instead of throwing (for callers that roll back).  On success the disk
copy becomes the written list. -/
def persistAttemptM (env : Env) : M (Option String) := fun s =>
  match env.write_workspaces s.workspaces with
  | .ok _ =>
    (.ok none, { s with disk := s.workspaces },
      [Event.persist (s.workspaces.map (fun e => e.id))])
  | .error e =>
    (.ok (some e), s, [Event.persist (s.workspaces.map (fun e => e.id))])

/-- `write_workspaces(&state.storage_path, &list)?`. -/
def persistM (env : Env) : M Unit := do
  match ← persistAttemptM env with
  | none => pure ()
  | some e => throwM e

/-- `spawn_workspace_session(entry, bin, args, app, home).await` —
success yields a fresh session handle and records the spawn. -/
def spawnM (env : Env) (entry : WorkspaceEntry) (bin : Option String)
    (args : List String) (home : String) : M Nat := fun s =>
  match env.spawn_workspace_session entry bin args home with
  | .ok n => (.ok n, s, [Event.spawnSession n entry.id])
  | .error e => (.error e, s, [])

/-- `sessions.insert(id, session)`: installs the new session and returns
the evicted one, recording the installation. -/
def installSessionM (wsId : String) (sid : Nat) : M (Option Nat) := fun s =>
  (.ok (sLookup s.sessions wsId),
    { s with sessions := sInsert s.sessions wsId sid },
    [Event.installSession wsId sid])

/-- `sessions.remove(&id)`: removes and returns the session, recording the
removal. -/
def removeSessionM (wsId : String) : M (Option Nat) := fun s =>
  (.ok (sLookup s.sessions wsId),
    { s with sessions := sRemove s.sessions wsId },
    [Event.removeSession wsId])

/-- `child.kill().await` (result discarded by every caller). -/
def killM (sid : Nat) : M Unit := fun s => (.ok (), s, [Event.killSession sid])

/-- `if let Some(session) = ... { kill }`. -/
def killIfSome : Option Nat → M Unit
  | some sid => killM sid
  | none => pure ()

/-- `std::fs::create_dir_all(p).map_err(|e| msg + e)?`. -/
def createDirM (env : Env) (p : String) (msg : String) : M Unit := do
  emitM (.createDirAll p)
  match env.create_dir_all p with
  | .ok _ => pure ()
  | .error e => throwM (msg ++ e)

/-- `std::fs::remove_dir_all(p).map_err(|e| msg + e)?`. -/
def removeDirM (env : Env) (p : String) (msg : String) : M Unit := do
  emitM (.removeDirAll p)
  match env.remove_dir_all p with
  | .ok _ => pure ()
  | .error e => throwM (msg ++ e)

/-- `let _ = tokio::fs::remove_dir_all(p).await;` (failure swallowed). -/
def removeDirIgnoreM (env : Env) (p : String) : M Unit := do
  emitM (.removeDirAll p)
  pure ()

/-- The `WorkspaceInfo` built from an entry and a connected flag (the
common tail of the commands). -/
def entryInfo (e : WorkspaceEntry) (connected : Bool) : WorkspaceInfo :=
  { id := e.id, name := e.name, path := e.path, codex_bin := e.codex_bin,
    connected := connected, kind := e.kind, parent_id := e.parent_id,
    worktree := e.worktree, settings := e.settings }

/-- `list_workspaces` (commands.rs lines 62-90). -/
def list_workspaces (env : Env) : M (List WorkspaceInfo) := do
  if env.is_remote_mode then
    emitM (.remoteCall "list_workspaces" [])
    liftE env.remote_info_list
  else
    let s ← getS
    let result := s.workspaces.map (fun e => entryInfo e (sContains s.sessions e.id))
    pure (env.sort_workspaces result)

/-- `add_workspace` (commands.rs lines 113-196). -/
def add_workspace (env : Env) (path : String) (codex_bin : Option String) :
    M WorkspaceInfo := do
  if env.is_remote_mode then
    let path := env.normalize_path_for_remote path
    let codex_bin := codex_bin.map env.normalize_path_for_remote
    emitM (.remoteCall "add_workspace"
      (path :: (codex_bin.map (fun b => [b])).getD []))
    liftE (env.remote_info "add_workspace")
  else
    if !(env.is_dir path) then
      throwM "Workspace path must be a folder."
    else
    let name := (env.file_name path).getD "Workspace"
    let entry : WorkspaceEntry :=
      { id := env.fresh_id, name := name, path := path, codex_bin := codex_bin,
        kind := .main, parent_id := none, worktree := none,
        settings := WorkspaceSettings.default }
    let default_bin := env.app_settings_codex_bin
    let codex_args := env.resolve_workspace_codex_args entry none
    let codex_home := env.resolve_workspace_codex_home entry none
    let session ← spawnM env entry default_bin codex_args codex_home
    modifyS (fun s => { s with workspaces := wsInsert s.workspaces entry })
    match ← persistAttemptM env with
    | some error =>
      modifyS (fun s => { s with workspaces := wsRemove s.workspaces entry.id })
      killM session
      throwM error
    | none =>
      let _ ← installSessionM entry.id session
      pure (entryInfo entry true)

/-- `add_clone` (commands.rs lines 199-333).  Note: the source has no
remote-mode check in this command. -/
def add_clone (env : Env) (source_workspace_id : String) (copy_name : String)
    (copies_folder : String) : M WorkspaceInfo := do
  let copy_name := trimStr copy_name
  if copy_name = "" then
    throwM "Copy name is required."
  else
  let copies_folder := trimStr copies_folder
  if copies_folder = "" then
    throwM "Copies folder is required."
  else
  createDirM env copies_folder "Failed to create copies folder: "
  if !(env.is_dir copies_folder) then
    throwM "Copies folder must be a directory."
  else
  let s ← getS
  let some source_entry := wsGet s.workspaces source_workspace_id
    | throwM "source workspace not found"
  let inherited_group_id :=
    if source_entry.kind.is_worktree then
      (source_entry.parent_id.bind (fun pid => wsGet s.workspaces pid)).bind
        (fun parent => parent.settings.group_id)
    else
      source_entry.settings.group_id
  let destination_path := env.build_clone_destination_path copies_folder copy_name
  emitM (.gitRun copies_folder ["clone", source_entry.path, destination_path])
  match env.run_git_command copies_folder
      ["clone", source_entry.path, destination_path] with
  | .error error =>
    removeDirIgnoreM env destination_path
    throwM error
  | .ok _ =>
  match env.git_get_origin_url source_entry.path with
  | some origin_url =>
    runGitIgnoreM env destination_path ["remote", "set-url", "origin", origin_url]
  | none => pure ()
  let entry : WorkspaceEntry :=
    { id := env.fresh_id, name := copy_name, path := destination_path,
      codex_bin := source_entry.codex_bin, kind := .main, parent_id := none,
      worktree := none,
      settings := { WorkspaceSettings.default with group_id := inherited_group_id } }
  let default_bin := env.app_settings_codex_bin
  let codex_args := env.resolve_workspace_codex_args entry none
  let codex_home := env.resolve_workspace_codex_home entry none
  match env.spawn_workspace_session entry default_bin codex_args codex_home with
  | .error error =>
    removeDirIgnoreM env destination_path
    throwM error
  | .ok session =>
  emitM (.spawnSession session entry.id)
  modifyS (fun s => { s with workspaces := wsInsert s.workspaces entry })
  match ← persistAttemptM env with
  | some error =>
    modifyS (fun s => { s with workspaces := wsRemove s.workspaces entry.id })
    killM session
    removeDirIgnoreM env destination_path
    throwM error
  | none =>
    let _ ← installSessionM entry.id session
    pure (entryInfo entry true)

/-- `add_worktree` (commands.rs lines 336-445). -/
def add_worktree (env : Env) (parent_id : String) (branch : String) :
    M WorkspaceInfo := do
  if env.is_remote_mode then
    emitM (.remoteCall "add_worktree" [parent_id, branch])
    liftE (env.remote_info "add_worktree")
  else
  let branch := trimStr branch
  if branch = "" then
    throwM "Branch name is required."
  else
  let s ← getS
  let some parent_entry := wsGet s.workspaces parent_id
    | throwM "parent workspace not found"
  if parent_entry.kind.is_worktree then
    throwM "Cannot create a worktree from another worktree."
  else
  let app_data ← liftE (env.app_data_dir.mapError
    (fun e => "Failed to resolve app data dir: " ++ e))
  let worktree_root :=
    env.join_path (env.join_path app_data "worktrees") parent_entry.id
  createDirM env worktree_root "Failed to create worktree directory: "
  let safe_name := env.sanitize_worktree_name branch
  let worktree_path := env.unique_worktree_path worktree_root safe_name
  let branch_exists ← liftE (env.git_branch_exists parent_entry.path branch)
  if branch_exists then
    let _ ← runGitM env parent_entry.path
      ["worktree", "add", worktree_path, branch]
    pure ()
  else
    let _ ← runGitM env parent_entry.path
      ["worktree", "add", "-b", branch, worktree_path]
    pure ()
  let entry : WorkspaceEntry :=
    { id := env.fresh_id, name := branch, path := worktree_path,
      codex_bin := parent_entry.codex_bin, kind := .worktree,
      parent_id := some parent_entry.id,
      worktree := some { branch := branch },
      settings := WorkspaceSettings.default }
  let default_bin := env.app_settings_codex_bin
  let codex_args := env.resolve_workspace_codex_args entry (some parent_entry)
  let codex_home := env.resolve_workspace_codex_home entry (some parent_entry)
  let session ← spawnM env entry default_bin codex_args codex_home
  modifyS (fun s => { s with workspaces := wsInsert s.workspaces entry })
  persistM env
  let _ ← installSessionM entry.id session
  pure (entryInfo entry true)

/-- Best-effort removal of one worktree directory (the identical code at
commands.rs lines 482-500 and 560-578): run `git worktree remove --force`
when the directory exists, fall back to raw directory deletion when Git
reports the worktree as already missing, propagate any other Git error. -/
def removeWorktreeDirM (env : Env) (parent_path path : String) : M Unit := do
  if env.path_exists path then
    emitM (.gitRun parent_path ["worktree", "remove", "--force", path])
    match env.run_git_command parent_path
        ["worktree", "remove", "--force", path] with
    | .ok _ => pure ()
    | .error error =>
      if env.is_missing_worktree_error error then
        if env.path_exists path then
          removeDirM env path "Failed to remove worktree folder: "
        else
          pure ()
      else
        throwM error
  else
    pure ()

/-- The per-child removal loop of `remove_workspace` (commands.rs lines
477-501): kill the child's session, then best-effort Git worktree
removal with the missing-worktree fallback. -/
def removeWorkspaceChildren (env : Env) (parent_path : String) :
    List WorkspaceEntry → M Unit
  | [] => pure ()
  | child :: rest => do
    let old ← removeSessionM child.id
    killIfSome old
    removeWorktreeDirM env parent_path child.path
    removeWorkspaceChildren env parent_path rest

/-- `remove_workspace` (commands.rs lines 448-520). -/
def remove_workspace (env : Env) (id : String) : M Unit := do
  if env.is_remote_mode then
    emitM (.remoteCall "remove_workspace" [id])
    liftE (env.remote_unit "remove_workspace")
  else
  let s ← getS
  let some entry := wsGet s.workspaces id
    | throwM "workspace not found"
  if entry.kind.is_worktree then
    throwM "Use remove_worktree for worktree agents."
  else
  let child_worktrees :=
    s.workspaces.filter (fun w => decide (w.parent_id = some id))
  let parent_path := entry.path
  removeWorkspaceChildren env parent_path child_worktrees
  runGitIgnoreM env parent_path ["worktree", "prune", "--expire", "now"]
  let old ← removeSessionM id
  killIfSome old
  modifyS (fun st =>
    let m1 := wsRemove st.workspaces id
    { st with workspaces := child_worktrees.foldl (fun m c => wsRemove m c.id) m1 })
  persistM env

/-- `remove_worktree` (commands.rs lines 523-589). -/
def remove_worktree (env : Env) (id : String) : M Unit := do
  if env.is_remote_mode then
    emitM (.remoteCall "remove_worktree" [id])
    liftE (env.remote_unit "remove_worktree")
  else
  let s ← getS
  let some entry := wsGet s.workspaces id
    | throwM "workspace not found"
  if !entry.kind.is_worktree then
    throwM "Not a worktree workspace."
  else
  let some parent_id := entry.parent_id
    | throwM "worktree parent not found"
  let some parent := wsGet s.workspaces parent_id
    | throwM "worktree parent not found"
  let old ← removeSessionM entry.id
  killIfSome old
  let parent_path := parent.path
  removeWorktreeDirM env parent_path entry.path
  runGitIgnoreM env parent_path ["worktree", "prune", "--expire", "now"]
  modifyS (fun st => { st with workspaces := wsRemove st.workspaces entry.id })
  persistM env

/-- `rename_worktree` (commands.rs lines 592-762). -/
def rename_worktree (env : Env) (id : String) (branch : String) :
    M WorkspaceInfo := do
  if env.is_remote_mode then
    emitM (.remoteCall "rename_worktree" [id, branch])
    liftE (env.remote_info "rename_worktree")
  else
  let trimmed := trimStr branch
  if trimmed = "" then
    throwM "Branch name is required."
  else
  let s ← getS
  let some entry := wsGet s.workspaces id
    | throwM "workspace not found"
  if !entry.kind.is_worktree then
    throwM "Not a worktree workspace."
  else
  let some parent_id := entry.parent_id
    | throwM "worktree parent not found"
  let some parent := wsGet s.workspaces parent_id
    | throwM "worktree parent not found"
  let some wt := entry.worktree
    | throwM "worktree metadata missing"
  let old_branch := wt.branch
  if old_branch = trimmed then
    throwM "Branch name is unchanged."
  else
  let parent_root ← liftE (env.resolve_git_root parent)
  let fb ← liftE (env.unique_branch_name parent_root trimmed none)
  let final_branch := fb.1
  if final_branch = old_branch then
    throwM "Branch name is unchanged."
  else
  let _ ← runGitM env parent_root ["branch", "-m", old_branch, final_branch]
  let app_data ← liftE (env.app_data_dir.mapError
    (fun e => "Failed to resolve app data dir: " ++ e))
  let worktree_root :=
    env.join_path (env.join_path app_data "worktrees") parent.id
  createDirM env worktree_root "Failed to create worktree directory: "
  let safe_name := env.sanitize_worktree_name final_branch
  let next_path ← liftE
    (env.unique_worktree_path_for_rename worktree_root safe_name entry.path)
  if next_path ≠ entry.path then
    emitM (.gitRun parent_root ["worktree", "move", entry.path, next_path])
    match env.run_git_command parent_root
        ["worktree", "move", entry.path, next_path] with
    | .ok _ => pure ()
    | .error error =>
      runGitIgnoreM env parent_root ["branch", "-m", final_branch, old_branch]
      throwM error
  else
    pure ()
  let st ← getS
  let some _ := wsGet st.workspaces id
    | throwM "workspace not found"
  let updated := fun e =>
    { e with name := final_branch, path := next_path,
             worktree := some { branch := final_branch } }
  modifyS (fun st2 => { st2 with workspaces := wsModify st2.workspaces id updated })
  let st2 ← getS
  let some entry_snapshot := wsGet st2.workspaces id
    | throwM "workspace not found"
  persistM env
  let st3 ← getS
  let was_connected := sContains st3.sessions entry_snapshot.id
  if was_connected then
    let old ← removeSessionM entry_snapshot.id
    killIfSome old
    let default_bin := env.app_settings_codex_bin
    let codex_args := env.resolve_workspace_codex_args entry_snapshot (some parent)
    let codex_home := env.resolve_workspace_codex_home entry_snapshot (some parent)
    match env.spawn_workspace_session entry_snapshot default_bin codex_args
        codex_home with
    | .ok session =>
      emitM (.spawnSession session entry_snapshot.id)
      let _ ← installSessionM entry_snapshot.id session
      pure ()
    | .error _ =>
      pure ()
  else
    pure ()
  let st4 ← getS
  let connected := sContains st4.sessions entry_snapshot.id
  pure (entryInfo entry_snapshot connected)

/-- `connect_workspace` (commands.rs lines 1202-1242). -/
def connect_workspace (env : Env) (id : String) : M Unit := do
  if env.is_remote_mode then
    emitM (.remoteCall "connect_workspace" [id])
    liftE (env.remote_unit "connect_workspace")
  else
  let s ← getS
  let some entry := wsGet s.workspaces id
    | throwM "workspace not found"
  let parent_entry := entry.parent_id.bind (fun pid => wsGet s.workspaces pid)
  let default_bin := env.app_settings_codex_bin
  let codex_args := env.resolve_workspace_codex_args entry parent_entry
  let codex_home := env.resolve_workspace_codex_home entry parent_entry
  let session ← spawnM env entry default_bin codex_args codex_home
  let _ ← installSessionM entry.id session
  pure ()

/-- Substring test used to classify `git apply` output
(`detail.contains(...)` in Rust). -/
def containsSubstring (s pat : String) : Bool :=
  containsChars s.data pat.data

/-- The untracked-file loop of `apply_worktree_changes` (commands.rs lines
918-937): for every null-separated path, synthesize a diff against the
null device and append it to the patch. -/
def untrackedPatch (env : Env) (worktree_root : String) :
    List String → M String
  | [] => pure ""
  | raw :: rest => do
    if raw = "" then
      untrackedPatch env worktree_root rest
    else
      let d ← runGitDiffM env worktree_root
        ["diff", "--binary", "--no-color", "--no-index", "--",
          env.null_device_path, raw]
      let restPatch ← untrackedPatch env worktree_root rest
      pure (d ++ restPatch)

/-- `apply_worktree_changes` (commands.rs lines 868-993).  Note: the
source has no remote-mode check in this command. -/
def apply_worktree_changes (env : Env) (workspace_id : String) : M Unit := do
  let s ← getS
  let some entry := wsGet s.workspaces workspace_id
    | throwM "workspace not found"
  if !entry.kind.is_worktree then
    throwM "Not a worktree workspace."
  else
  let some parent_id := entry.parent_id
    | throwM "worktree parent not found"
  let some parent := wsGet s.workspaces parent_id
    | throwM "worktree parent not found"
  let worktree_root ← liftE (env.resolve_git_root entry)
  let parent_root ← liftE (env.resolve_git_root parent)
  let parent_status ← runGitBytesM env parent_root ["status", "--porcelain"]
  if trimStr parent_status ≠ "" then
    throwM "Your current branch has uncommitted changes. Please commit, stash, or discard them before applying worktree changes."
  else
  let staged_patch ← runGitDiffM env worktree_root
    ["diff", "--binary", "--no-color", "--cached"]
  let unstaged_patch ← runGitDiffM env worktree_root
    ["diff", "--binary", "--no-color"]
  let untracked_output ← runGitBytesM env worktree_root
    ["ls-files", "--others", "--exclude-standard", "-z"]
  let untracked ← untrackedPatch env worktree_root
    (splitOnZero untracked_output.data)
  let patch := staged_patch ++ unstaged_patch ++ untracked
  if trimStr patch = "" then
    throwM "No changes to apply."
  else
  emitM (.gitRun parent_root ["apply", "--3way", "--whitespace=nowarn", "-"])
  match env.git_apply parent_root patch with
  | .error e => throwM e
  | .ok output =>
    if output.1 then
      pure ()
    else
      let stdout := output.2.1
      let stderr := output.2.2
      let detail := if trimStr stderr = "" then trimStr stdout else trimStr stderr
      if detail = "" then
        throwM "Git apply failed."
      else if containsSubstring detail "Applied patch to" then
        if containsSubstring detail "with conflicts" then
          throwM "Applied with conflicts. Resolve conflicts in the parent repo before retrying."
        else
          throwM "Patch applied partially. Resolve changes in the parent repo before retrying."
      else
        throwM detail

/-- Modelled from the spec: `apply_workspace_settings_update` (settings.rs,
not under src/) stores the new per-workspace settings on the entry and
returns the updated snapshot, failing when the id is unknown (spec
section 6: "persists new settings"). -/
def apply_workspace_settings_update (m : List WorkspaceEntry) (id : String)
    (settings : WorkspaceSettings) :
    Except String (WorkspaceEntry × List WorkspaceEntry) :=
  match wsGet m id with
  | none => .error "workspace not found"
  | some e =>
    let e2 := { e with settings := settings }
    .ok (e2, wsModify m id (fun _ => e2))

/-- The child-respawn loop of `update_workspace_settings` (commands.rs
lines 1092-1133): respawn every connected child worktree whose effective
home or args changed; spawn failures are logged and skipped. -/
def respawnChildren (env : Env) (previous_entry entry_snapshot : WorkspaceEntry) :
    List WorkspaceEntry → M Unit
  | [] => pure ()
  | child :: rest => do
    let st ← getS
    let connected := sContains st.sessions child.id
    if !connected then
      respawnChildren env previous_entry entry_snapshot rest
    else
    let previous_child_home :=
      env.resolve_workspace_codex_home child (some previous_entry)
    let next_child_home :=
      env.resolve_workspace_codex_home child (some entry_snapshot)
    let previous_child_args :=
      env.resolve_workspace_codex_args child (some previous_entry)
    let next_child_args :=
      env.resolve_workspace_codex_args child (some entry_snapshot)
    if previous_child_home = next_child_home ∧
        previous_child_args = next_child_args then
      respawnChildren env previous_entry entry_snapshot rest
    else
    match env.spawn_workspace_session child env.app_settings_codex_bin
        next_child_args next_child_home with
    | .error _ =>
      respawnChildren env previous_entry entry_snapshot rest
    | .ok session =>
      emitM (.spawnSession session child.id)
      let old ← installSessionM child.id session
      killIfSome old
      respawnChildren env previous_entry entry_snapshot rest

/-- `update_workspace_settings` (commands.rs lines 996-1151). -/
def update_workspace_settings (env : Env) (id : String)
    (settings : WorkspaceSettings) : M WorkspaceInfo := do
  if env.is_remote_mode then
    emitM (.remoteCall "update_workspace_settings" [id])
    liftE (env.remote_info "update_workspace_settings")
  else
  let s ← getS
  let some previous_entry := wsGet s.workspaces id
    | throwM "workspace not found"
  let previous_codex_home := previous_entry.settings.codex_home
  let previous_codex_args := previous_entry.settings.codex_args
  let upd ← liftE (apply_workspace_settings_update s.workspaces id settings)
  let entry_snapshot := upd.1
  modifyS (fun st => { st with workspaces := upd.2 })
  let parent_entry := entry_snapshot.parent_id.bind (fun pid => wsGet upd.2 pid)
  let child_entries := upd.2.filter (fun e => decide (e.parent_id = some id))
  let codex_home_changed :=
    decide (previous_codex_home ≠ entry_snapshot.settings.codex_home)
  let codex_args_changed :=
    decide (previous_codex_args ≠ entry_snapshot.settings.codex_args)
  let st1 ← getS
  let connected := sContains st1.sessions id
  if connected && (codex_home_changed || codex_args_changed) then
    let rollback_entry := previous_entry
    let codex_args := env.resolve_workspace_codex_args entry_snapshot parent_entry
    let codex_home := env.resolve_workspace_codex_home entry_snapshot parent_entry
    match env.spawn_workspace_session entry_snapshot env.app_settings_codex_bin
        codex_args codex_home with
    | .error error =>
      modifyS (fun st =>
        { st with workspaces := wsInsert st.workspaces rollback_entry })
      throwM error
    | .ok new_session =>
      emitM (.spawnSession new_session entry_snapshot.id)
      let old ← installSessionM entry_snapshot.id new_session
      killIfSome old
  else
    pure ()
  if codex_home_changed || codex_args_changed then
    respawnChildren env previous_entry entry_snapshot child_entries
  else
    pure ()
  persistM env
  pure (entryInfo entry_snapshot connected)

/-- `update_workspace_codex_bin` (commands.rs lines 1154-1199). -/
def update_workspace_codex_bin (env : Env) (id : String)
    (codex_bin : Option String) : M WorkspaceInfo := do
  if env.is_remote_mode then
    emitM (.remoteCall "update_workspace_codex_bin"
      (id :: ((codex_bin.map env.normalize_path_for_remote).map
        (fun b => [b])).getD []))
    liftE (env.remote_info "update_workspace_codex_bin")
  else
  let s ← getS
  let some _ := wsGet s.workspaces id
    | throwM "workspace not found"
  modifyS (fun st =>
    { st with workspaces :=
        wsModify st.workspaces id (fun e => { e with codex_bin := codex_bin }) })
  let st ← getS
  let some entry_snapshot := wsGet st.workspaces id
    | throwM "workspace not found"
  persistM env
  let st2 ← getS
  let connected := sContains st2.sessions id
  pure (entryInfo entry_snapshot connected)

/-! Concrete fixtures used in counterexamples and witnesses. -/

/-- A deterministic environment in which every collaborator succeeds with
a simple value; individual tests override single fields. -/
def env0 : Env :=
  { is_remote_mode := false
    remote_info := fun _ => .error "remote backend unavailable"
    remote_info_list := .error "remote backend unavailable"
    remote_unit := fun _ => .error "remote backend unavailable"
    normalize_path_for_remote := fun p => p
    run_git_command := fun _ _ => .ok ""
    run_git_command_bytes := fun _ _ => .ok ""
    run_git_diff := fun _ _ => .ok ""
    git_apply := fun _ _ => .ok (true, "", "")
    is_missing_worktree_error := fun _ => false
    git_branch_exists := fun _ _ => .ok true
    git_get_origin_url := fun _ => none
    unique_branch_name := fun _ b _ => .ok (b, false)
    write_workspaces := fun _ => .ok ()
    spawn_workspace_session := fun _ _ _ _ => .ok 2
    fresh_id := "fresh"
    is_dir := fun _ => true
    path_exists := fun _ => true
    create_dir_all := fun _ => .ok ()
    remove_dir_all := fun _ => .ok ()
    file_name := fun _ => none
    app_data_dir := .ok "appdata"
    join_path := fun a b => a ++ "/" ++ b
    resolve_git_root := fun e => .ok e.path
    sanitize_worktree_name := fun b => b
    unique_worktree_path := fun r n => r ++ "/" ++ n
    unique_worktree_path_for_rename := fun r n _ => .ok (r ++ "/" ++ n)
    resolve_workspace_codex_home := fun _ _ => "home"
    resolve_workspace_codex_args := fun _ _ => []
    app_settings_codex_bin := none
    build_clone_destination_path := fun f n => f ++ "/" ++ n
    null_device_path := "/dev/null"
    sort_workspaces := fun l => l }

/-- A main workspace used as a parent in the fixtures. -/
def mainEntry : WorkspaceEntry :=
  { id := "p", name := "proj", path := "proot", codex_bin := none,
    kind := .main, parent_id := none, worktree := none,
    settings := WorkspaceSettings.default }

/-- A worktree child of `mainEntry` on branch "ob", located where the
rename path resolver of `env0` will keep it in place. -/
def wtEntry : WorkspaceEntry :=
  { id := "w", name := "ob", path := "appdata/worktrees/p/nb",
    codex_bin := none, kind := .worktree, parent_id := some "p",
    worktree := some { branch := "ob" },
    settings := WorkspaceSettings.default }

/-- State with the parent, its worktree and a live session (handle 1) for
the worktree. -/
def stConn : AppState :=
  { workspaces := [mainEntry, wtEntry]
    sessions := [("w", 1)]
    disk := [mainEntry, wtEntry] }

/-- Settings value used by concrete tests: a changed home override. -/
def newSettings : WorkspaceSettings :=
  { codex_home := some "h2", codex_args := none, group_id := none }

/-- `wtEntry` after storing `newSettings`. -/
def snapW : WorkspaceEntry := { wtEntry with settings := newSettings }

/-- Environment in which persisting the workspace list always fails. -/
def envPersistFail : Env :=
  { env0 with write_workspaces := fun _ => .error "disk full" }

/-- State holding only the main workspace. -/
def stMain : AppState :=
  { workspaces := [mainEntry], sessions := [], disk := [mainEntry] }

/-- Remote-mode environment over the default fixtures. -/
def envRemote : Env := { env0 with is_remote_mode := true }

/-- Environment whose porcelain status of the parent reports a dirty
file. -/
def envDirty : Env :=
  { env0 with run_git_command_bytes := fun _ args =>
      if args = ["status", "--porcelain"] then .ok " M file" else .ok "" }

/-- Environment in which `git worktree move` fails and every other Git
call succeeds. -/
def envMoveFail : Env :=
  { env0 with run_git_command := fun _ args =>
      if args.take 2 = ["worktree", "move"] then .error "move failed"
      else .ok "" }

/-- A computation leaves the registry and the persisted list untouched
(it may still kill sessions, run Git and write the trace). -/
def PreservesWD {α : Type} (m : M α) : Prop :=
  ∀ s, ((m s).2.1.workspaces = s.workspaces) ∧ ((m s).2.1.disk = s.disk)

/-! Unfolding lemmas for the command monad. -/

theorem M.bind_def {α β : Type} (x : M α) (f : α → M β) :
    x >>= f = M.bind x f := rfl

theorem M.pure_def {α : Type} (a : α) : (pure a : M α) = M.pure a := rfl

/-- Claim C2, counterexample: at this concrete input, `rename_worktree`
respawns a connected session by removing and killing the old session
(trace indices 3 and 4) strictly before the new session is installed
(trace index 6); no session is installed anywhere before the kill.  This
refutes "the new session is installed in the session map before the old
session's process is terminated" for the rename respawn. -/
theorem rename_worktree_kills_old_before_installing_new :
    ((rename_worktree env0 "w" "nb" stConn).2.2.get? 4 =
        some (Event.killSession 1)) ∧
    ((rename_worktree env0 "w" "nb" stConn).2.2.get? 6 =
        some (Event.installSession "w" 2)) ∧
    (((rename_worktree env0 "w" "nb" stConn).2.2.take 4).any
        (fun ev => match ev with
          | Event.installSession _ _ => true
          | _ => false)) = false := by
  decide

/-- Claim C2, amended: in `update_workspace_settings` the respawn of the
entry's own session spawns the new process, installs it in the session
map, and only then kills the evicted old session — the three effects are
adjacent and in that order at the head of the effect trace. -/
theorem update_settings_installs_new_before_killing_old
    (env : Env) (s : AppState) (id : String) (settings : WorkspaceSettings)
    (prev snap : WorkspaceEntry) (m2 : List WorkspaceEntry) (o n : Nat)
    (hrm : env.is_remote_mode = false)
    (hprev : wsGet s.workspaces id = some prev)
    (hupd : apply_workspace_settings_update s.workspaces id settings =
      .ok (snap, m2))
    (hconn : sContains s.sessions id = true)
    (hchanged : (decide (prev.settings.codex_home ≠ snap.settings.codex_home) ||
        decide (prev.settings.codex_args ≠ snap.settings.codex_args)) = true)
    (hold : sLookup s.sessions snap.id = some o)
    (hspawn : env.spawn_workspace_session snap env.app_settings_codex_bin
      (env.resolve_workspace_codex_args snap
        (snap.parent_id.bind (fun pid => wsGet m2 pid)))
      (env.resolve_workspace_codex_home snap
        (snap.parent_id.bind (fun pid => wsGet m2 pid))) = .ok n) :
    ∃ rest, (update_workspace_settings env id settings s).2.2 =
      Event.spawnSession n snap.id :: Event.installSession snap.id n ::
        Event.killSession o :: rest := by
  simp only [update_workspace_settings, M.bind_def, M.pure_def, M.bind, M.pure,
    getS, modifyS, emitM, liftE, throwM, spawnM, installSessionM, killIfSome,
    killM, hrm, hprev, hupd, hconn, hchanged, hold, hspawn, Bool.false_eq_true,
    if_false, Bool.true_and, Bool.and_self, List.append_nil, List.nil_append,
    List.cons_append, List.singleton_append, Bool.true_or, Bool.or_true,
    if_true, ite_true, ite_false]
  exact ⟨_, rfl⟩

/-- Witness for the amended C2 theorem at a concrete input: a connected
worktree whose home override changes. -/
theorem update_settings_installs_new_before_killing_old_concrete :
    ∃ rest, (update_workspace_settings env0 "w" newSettings stConn).2.2 =
      Event.spawnSession 2 snapW.id :: Event.installSession snapW.id 2 ::
        Event.killSession 1 :: rest :=
  update_settings_installs_new_before_killing_old env0 stConn "w" newSettings
    wtEntry snapW [mainEntry, snapW] 1 2 rfl (by decide) (by decide)
    (by decide) (by decide) (by decide) rfl

/-- Claim C3, counterexample: with a registered entry of kind Worktree as
the parent, `add_worktree` called with a whitespace-only branch string
fails with the required-branch validation error, not with the
invalid-operation error the claim requires for every branch string. -/
theorem add_worktree_whitespace_branch_validation_first :
    ((add_worktree env0 "w" "   " stConn).1 =
        .error "Branch name is required.") ∧
    ((add_worktree env0 "w" "   " stConn).1 ≠
        .error "Cannot create a worktree from another worktree.") := by
  decide

/-- Claim C3, amended: in local mode, whenever the trimmed branch string
is non-empty, `add_worktree` on a parent whose kind is Worktree fails with
the invalid-operation error and changes nothing; a branch that trims to
the empty string instead fails earlier with "Branch name is required.". -/
theorem add_worktree_on_worktree_parent_fails
    (env : Env) (s : AppState) (parent_id branch : String)
    (pe : WorkspaceEntry)
    (hrm : env.is_remote_mode = false)
    (hne : trimStr branch ≠ "")
    (hget : wsGet s.workspaces parent_id = some pe)
    (hkind : pe.kind.is_worktree = true) :
    (add_worktree env parent_id branch s).1 =
      .error "Cannot create a worktree from another worktree." ∧
    (add_worktree env parent_id branch s).2.1 = s ∧
    (add_worktree env parent_id branch s).2.2 = [] := by
  simp only [add_worktree, M.bind_def, M.pure_def, M.bind, M.pure, getS,
    emitM, liftE, throwM, hrm, hne, hget, hkind, Bool.false_eq_true, if_false,
    ite_false, ite_true, if_true, List.append_nil, List.nil_append]
  simp [hne]

/-- Witness for the amended C3 theorem at a concrete input. -/
theorem add_worktree_on_worktree_parent_fails_concrete :
    (add_worktree env0 "w" "feature" stConn).1 =
      .error "Cannot create a worktree from another worktree." ∧
    (add_worktree env0 "w" "feature" stConn).2.1 = stConn ∧
    (add_worktree env0 "w" "feature" stConn).2.2 = [] :=
  add_worktree_on_worktree_parent_fails env0 stConn "w" "feature" wtEntry
    rfl (by decide) (by decide) rfl

/-- Claim C1, failing input: when persistence fails after the in-memory
insert, `add_worktree` keeps the inserted entry (id "fresh") in the
registry, never kills the session it spawned, and returns the persistence
error — so the registry contains an entry the persisted list lacks.
Under the identical persistence failure `add_workspace` rolls its insert
back and kills the spawned session, exactly as the claim demands of all
three insert operations. -/
theorem add_worktree_keeps_entry_on_persist_failure :
    ((add_worktree envPersistFail "p" "nb" stMain).1 =
        .error "disk full") ∧
    ((add_worktree envPersistFail "p" "nb" stMain).2.1.workspaces.any
        (fun e => decide (e.id = "fresh")) = true) ∧
    ((add_worktree envPersistFail "p" "nb" stMain).2.1.disk.any
        (fun e => decide (e.id = "fresh")) = false) ∧
    ((add_worktree envPersistFail "p" "nb" stMain).2.2.any
        (fun ev => match ev with
          | Event.killSession _ => true
          | _ => false) = false) ∧
    ((add_workspace envPersistFail "proot" none stMain).2.1.workspaces =
        stMain.workspaces) ∧
    ((add_workspace envPersistFail "proot" none stMain).2.2.any
        (fun ev => match ev with
          | Event.killSession _ => true
          | _ => false) = true) := by
  decide

/-- Claim C4, counterexample: in remote mode both `apply_worktree_changes`
and `add_clone` still execute locally — each runs Git commands and
neither ever issues a remote call. -/
theorem remote_mode_apply_and_clone_run_locally :
    (envRemote.is_remote_mode = true) ∧
    ((apply_worktree_changes envRemote "w" stConn).2.2.any
        (fun ev => match ev with
          | Event.gitRun _ _ => true
          | _ => false) = true) ∧
    ((apply_worktree_changes envRemote "w" stConn).2.2.any
        (fun ev => match ev with
          | Event.remoteCall _ _ => true
          | _ => false) = false) ∧
    ((add_clone envRemote "p" "c" "copies" stConn).2.2.any
        (fun ev => match ev with
          | Event.gitRun _ _ => true
          | _ => false) = true) ∧
    ((add_clone envRemote "p" "c" "copies" stConn).2.2.any
        (fun ev => match ev with
          | Event.remoteCall _ _ => true
          | _ => false) = false) := by
  decide

/-- Claim C4, amended: in remote mode every embedded boundary operation
other than `apply_worktree_changes` and `add_clone` only forwards — the
local state is untouched and the only effect is a single remote call
carrying the operation's name. -/
theorem remote_mode_forwards_commands
    (env : Env) (s : AppState) (hrm : env.is_remote_mode = true)
    (path idA branch : String) (cb : Option String)
    (settings : WorkspaceSettings) :
    ((list_workspaces env s).2.1 = s ∧
      ∃ p, (list_workspaces env s).2.2 =
        [Event.remoteCall "list_workspaces" p]) ∧
    ((add_workspace env path cb s).2.1 = s ∧
      ∃ p, (add_workspace env path cb s).2.2 =
        [Event.remoteCall "add_workspace" p]) ∧
    ((add_worktree env idA branch s).2.1 = s ∧
      ∃ p, (add_worktree env idA branch s).2.2 =
        [Event.remoteCall "add_worktree" p]) ∧
    ((remove_workspace env idA s).2.1 = s ∧
      ∃ p, (remove_workspace env idA s).2.2 =
        [Event.remoteCall "remove_workspace" p]) ∧
    ((remove_worktree env idA s).2.1 = s ∧
      ∃ p, (remove_worktree env idA s).2.2 =
        [Event.remoteCall "remove_worktree" p]) ∧
    ((rename_worktree env idA branch s).2.1 = s ∧
      ∃ p, (rename_worktree env idA branch s).2.2 =
        [Event.remoteCall "rename_worktree" p]) ∧
    ((update_workspace_settings env idA settings s).2.1 = s ∧
      ∃ p, (update_workspace_settings env idA settings s).2.2 =
        [Event.remoteCall "update_workspace_settings" p]) ∧
    ((update_workspace_codex_bin env idA cb s).2.1 = s ∧
      ∃ p, (update_workspace_codex_bin env idA cb s).2.2 =
        [Event.remoteCall "update_workspace_codex_bin" p]) ∧
    ((connect_workspace env idA s).2.1 = s ∧
      ∃ p, (connect_workspace env idA s).2.2 =
        [Event.remoteCall "connect_workspace" p]) := by
  simp [list_workspaces, add_workspace, add_worktree, remove_workspace,
    remove_worktree, rename_worktree, update_workspace_settings,
    update_workspace_codex_bin, connect_workspace, M.bind_def, M.pure_def,
    M.bind, M.pure, emitM, liftE, hrm]

/-- Witness for the amended C4 theorem at a concrete remote-mode input. -/
theorem remote_mode_forwards_commands_concrete :
    ((list_workspaces envRemote stConn).2.1 = stConn ∧
      ∃ p, (list_workspaces envRemote stConn).2.2 =
        [Event.remoteCall "list_workspaces" p]) ∧
    ((add_workspace envRemote "proot" none stConn).2.1 = stConn ∧
      ∃ p, (add_workspace envRemote "proot" none stConn).2.2 =
        [Event.remoteCall "add_workspace" p]) ∧
    ((add_worktree envRemote "p" "nb" stConn).2.1 = stConn ∧
      ∃ p, (add_worktree envRemote "p" "nb" stConn).2.2 =
        [Event.remoteCall "add_worktree" p]) ∧
    ((remove_workspace envRemote "p" stConn).2.1 = stConn ∧
      ∃ p, (remove_workspace envRemote "p" stConn).2.2 =
        [Event.remoteCall "remove_workspace" p]) ∧
    ((remove_worktree envRemote "p" stConn).2.1 = stConn ∧
      ∃ p, (remove_worktree envRemote "p" stConn).2.2 =
        [Event.remoteCall "remove_worktree" p]) ∧
    ((rename_worktree envRemote "p" "nb" stConn).2.1 = stConn ∧
      ∃ p, (rename_worktree envRemote "p" "nb" stConn).2.2 =
        [Event.remoteCall "rename_worktree" p]) ∧
    ((update_workspace_settings envRemote "p" newSettings stConn).2.1 = stConn ∧
      ∃ p, (update_workspace_settings envRemote "p" newSettings stConn).2.2 =
        [Event.remoteCall "update_workspace_settings" p]) ∧
    ((update_workspace_codex_bin envRemote "p" none stConn).2.1 = stConn ∧
      ∃ p, (update_workspace_codex_bin envRemote "p" none stConn).2.2 =
        [Event.remoteCall "update_workspace_codex_bin" p]) ∧
    ((connect_workspace envRemote "p" stConn).2.1 = stConn ∧
      ∃ p, (connect_workspace envRemote "p" stConn).2.2 =
        [Event.remoteCall "connect_workspace" p]) :=
  remote_mode_forwards_commands envRemote stConn rfl "proot" "p" "nb" none
    newSettings

/-- Claim C5: when the target worktree has no staged changes, no unstaged
changes and no untracked files, `apply_worktree_changes` fails with
"No changes to apply.", changes no state, and an immediately repeated
call fails with exactly the same error. -/
theorem apply_worktree_changes_empty_patch_fails
    (env : Env) (s : AppState) (idA pid : String) (e pe : WorkspaceEntry)
    (wroot proot ps : String)
    (hget : wsGet s.workspaces idA = some e)
    (hkind : e.kind.is_worktree = true)
    (hpid : e.parent_id = some pid)
    (hpe : wsGet s.workspaces pid = some pe)
    (hwr : env.resolve_git_root e = .ok wroot)
    (hpr : env.resolve_git_root pe = .ok proot)
    (hst : env.run_git_command_bytes proot ["status", "--porcelain"] = .ok ps)
    (hclean : trimStr ps = "")
    (hd1 : env.run_git_diff wroot
      ["diff", "--binary", "--no-color", "--cached"] = .ok "")
    (hd2 : env.run_git_diff wroot ["diff", "--binary", "--no-color"] = .ok "")
    (hls : env.run_git_command_bytes wroot
      ["ls-files", "--others", "--exclude-standard", "-z"] = .ok "") :
    (apply_worktree_changes env idA s).1 = .error "No changes to apply." ∧
    (apply_worktree_changes env idA s).2.1 = s ∧
    (apply_worktree_changes env idA
        (apply_worktree_changes env idA s).2.1).1 =
      .error "No changes to apply." := by
  have hz : splitOnZero ("" : String).data = [""] := by decide
  have key : (apply_worktree_changes env idA s).1 =
      .error "No changes to apply." ∧
      (apply_worktree_changes env idA s).2.1 = s := by
    simp [apply_worktree_changes, M.bind_def, M.pure_def, M.bind, M.pure,
      getS, emitM, liftE, throwM, runGitBytesM, runGitDiffM, untrackedPatch,
      hget, hkind, hpid, hpe, hwr, hpr, hst, hclean, hd1, hd2, hls, hz]
    constructor <;> rfl
  exact ⟨key.1, key.2, by rw [key.2]; exact key.1⟩

/-- Witness for the C5 theorem at a concrete input: the default
environment reports clean status, empty diffs and no untracked files. -/
theorem apply_worktree_changes_empty_patch_fails_concrete :
    (apply_worktree_changes env0 "w" stConn).1 =
      .error "No changes to apply." ∧
    (apply_worktree_changes env0 "w" stConn).2.1 = stConn ∧
    (apply_worktree_changes env0 "w"
        (apply_worktree_changes env0 "w" stConn).2.1).1 =
      .error "No changes to apply." :=
  apply_worktree_changes_empty_patch_fails env0 stConn "w" "p" wtEntry
    mainEntry wtEntry.path "proot" "" (by decide) rfl rfl (by decide) rfl rfl
    rfl (by decide) rfl rfl rfl

/-- Claim C6: on a worktree entry whose parent porcelain status is not
blank, `apply_worktree_changes` fails with the commit/stash-first error,
changes no state, and its only effect is the status query itself — no
diff is taken and nothing is applied.  (Porcelain output produced by Git
for a dirty parent always contains non-whitespace, which is what the
source's trim-based emptiness test checks.) -/
theorem apply_worktree_changes_dirty_parent_fails
    (env : Env) (s : AppState) (idA pid : String) (e pe : WorkspaceEntry)
    (wroot proot ps : String)
    (hget : wsGet s.workspaces idA = some e)
    (hkind : e.kind.is_worktree = true)
    (hpid : e.parent_id = some pid)
    (hpe : wsGet s.workspaces pid = some pe)
    (hwr : env.resolve_git_root e = .ok wroot)
    (hpr : env.resolve_git_root pe = .ok proot)
    (hst : env.run_git_command_bytes proot ["status", "--porcelain"] = .ok ps)
    (hdirty : trimStr ps ≠ "") :
    (apply_worktree_changes env idA s).1 =
      .error "Your current branch has uncommitted changes. Please commit, stash, or discard them before applying worktree changes." ∧
    (apply_worktree_changes env idA s).2.1 = s ∧
    (apply_worktree_changes env idA s).2.2 =
      [Event.gitRun proot ["status", "--porcelain"]] := by
  simp [apply_worktree_changes, M.bind_def, M.pure_def, M.bind, M.pure,
    getS, emitM, liftE, throwM, runGitBytesM, hget, hkind, hpid, hpe, hwr,
    hpr, hst, hdirty]

/-- Witness for the C6 theorem at a concrete input. -/
theorem apply_worktree_changes_dirty_parent_fails_concrete :
    (apply_worktree_changes envDirty "w" stConn).1 =
      .error "Your current branch has uncommitted changes. Please commit, stash, or discard them before applying worktree changes." ∧
    (apply_worktree_changes envDirty "w" stConn).2.1 = stConn ∧
    (apply_worktree_changes envDirty "w" stConn).2.2 =
      [Event.gitRun "proot" ["status", "--porcelain"]] :=
  apply_worktree_changes_dirty_parent_fails envDirty stConn "w" "p" wtEntry
    mainEntry wtEntry.path "proot" " M file" (by decide) rfl rfl (by decide)
    rfl rfl (by decide) (by decide)

/-- Claim C8: renaming a worktree to its current branch name fails with
"Branch name is unchanged." and has no effect at all — no Git command,
no filesystem change, no session change, no persistence (empty trace,
state unchanged). -/
theorem rename_worktree_unchanged_branch_fails
    (env : Env) (s : AppState) (idA branch pid : String)
    (e pe : WorkspaceEntry) (w : WorktreeInfo)
    (hrm : env.is_remote_mode = false)
    (hne : trimStr branch ≠ "")
    (hget : wsGet s.workspaces idA = some e)
    (hkind : e.kind.is_worktree = true)
    (hpid : e.parent_id = some pid)
    (hpe : wsGet s.workspaces pid = some pe)
    (hwt : e.worktree = some w)
    (heq : w.branch = trimStr branch) :
    (rename_worktree env idA branch s).1 =
      .error "Branch name is unchanged." ∧
    (rename_worktree env idA branch s).2.1 = s ∧
    (rename_worktree env idA branch s).2.2 = [] := by
  simp [rename_worktree, M.bind_def, M.pure_def, M.bind, M.pure, getS,
    emitM, liftE, throwM, hrm, hne, hget, hkind, hpid, hpe, hwt, heq]

/-- Witness for the C8 theorem at a concrete input: renaming worktree "w"
to its current branch "ob". -/
theorem rename_worktree_unchanged_branch_fails_concrete :
    (rename_worktree env0 "w" "ob" stConn).1 =
      .error "Branch name is unchanged." ∧
    (rename_worktree env0 "w" "ob" stConn).2.1 = stConn ∧
    (rename_worktree env0 "w" "ob" stConn).2.2 = [] :=
  rename_worktree_unchanged_branch_fails env0 stConn "w" "ob" "p" wtEntry
    mainEntry { branch := "ob" } rfl (by decide) (by decide) rfl rfl
    (by decide) rfl (by decide)

/-- Claim C9: when the worktree move fails after the branch was renamed,
`rename_worktree` reverses the branch rename (the final Git call renames
the branch back), returns the move error, and leaves the whole state —
registry, sessions and persisted list — untouched; no persist event is
emitted. -/
theorem rename_worktree_rolls_back_branch_on_move_failure
    (env : Env) (s : AppState) (idA branch pid : String)
    (e pe : WorkspaceEntry) (w : WorktreeInfo)
    (proot fb ad np bmOut ge : String) (sfx : Bool)
    (hrm : env.is_remote_mode = false)
    (hne : trimStr branch ≠ "")
    (hget : wsGet s.workspaces idA = some e)
    (hkind : e.kind.is_worktree = true)
    (hpid : e.parent_id = some pid)
    (hpe : wsGet s.workspaces pid = some pe)
    (hwt : e.worktree = some w)
    (hneq : ¬ (w.branch = trimStr branch))
    (hroot : env.resolve_git_root pe = .ok proot)
    (hub : env.unique_branch_name proot (trimStr branch) none = .ok (fb, sfx))
    (hfb : ¬ (fb = w.branch))
    (hbm : env.run_git_command proot ["branch", "-m", w.branch, fb] = .ok bmOut)
    (had : env.app_data_dir = .ok ad)
    (hcd : env.create_dir_all
      (env.join_path (env.join_path ad "worktrees") pe.id) = .ok ())
    (hnp : env.unique_worktree_path_for_rename
      (env.join_path (env.join_path ad "worktrees") pe.id)
      (env.sanitize_worktree_name fb) e.path = .ok np)
    (hnpne : np ≠ e.path)
    (hmv : env.run_git_command proot ["worktree", "move", e.path, np] =
      .error ge) :
    (rename_worktree env idA branch s).1 = .error ge ∧
    (rename_worktree env idA branch s).2.1 = s ∧
    (rename_worktree env idA branch s).2.2 =
      [Event.gitRun proot ["branch", "-m", w.branch, fb],
        Event.createDirAll (env.join_path (env.join_path ad "worktrees") pe.id),
        Event.gitRun proot ["worktree", "move", e.path, np],
        Event.gitRun proot ["branch", "-m", fb, w.branch]] := by
  simp [rename_worktree, runGitM, runGitIgnoreM, createDirM, M.bind_def,
    M.pure_def, M.bind, M.pure, getS, emitM, liftE, throwM, Except.mapError,
    hrm, hne, hget, hkind, hpid, hpe, hwt, hneq, hroot, hub, hfb, hbm, had,
    hcd, hnp, hnpne, hmv]
  exact ⟨rfl, rfl, rfl⟩

/-- Witness for the C9 theorem at a concrete input: renaming "w" from
"ob" to "nb2" when the directory move fails. -/
theorem rename_worktree_rolls_back_branch_on_move_failure_concrete :
    (rename_worktree envMoveFail "w" "nb2" stConn).1 =
      .error "move failed" ∧
    (rename_worktree envMoveFail "w" "nb2" stConn).2.1 = stConn ∧
    (rename_worktree envMoveFail "w" "nb2" stConn).2.2 =
      [Event.gitRun "proot" ["branch", "-m", "ob", "nb2"],
        Event.createDirAll
          (envMoveFail.join_path
            (envMoveFail.join_path "appdata" "worktrees") mainEntry.id),
        Event.gitRun "proot"
          ["worktree", "move", wtEntry.path, "appdata/worktrees/p/nb2"],
        Event.gitRun "proot" ["branch", "-m", "nb2", "ob"]] :=
  rename_worktree_rolls_back_branch_on_move_failure envMoveFail stConn "w"
    "nb2" "p" wtEntry mainEntry { branch := "ob" } "proot" "nb2" "appdata"
    "appdata/worktrees/p/nb2" "" "move failed" false (by decide) (by decide)
    (by decide) (by decide) (by decide) (by decide) (by decide) (by decide)
    (by decide) (by decide) (by decide) (by decide) (by decide) (by decide)
    (by decide) (by decide) (by decide)

/-! Preservation lemmas for the removal loop, and membership lemmas for
registry removal. -/

theorem preservesWD_bind {α β : Type} {x : M α} {f : α → M β}
    (hx : PreservesWD x) (hf : ∀ a, PreservesWD (f a)) :
    PreservesWD (x >>= f) := by
  intro s
  have h1 := hx s
  rcases hxs : x s with ⟨r, s1, t1⟩
  rw [hxs] at h1
  cases r with
  | error e =>
    simp only [M.bind_def, M.bind, hxs]
    exact h1
  | ok a =>
    have h2 := hf a s1
    rcases hfs : f a s1 with ⟨r2, s2, t2⟩
    rw [hfs] at h2
    simp only [M.bind_def, M.bind, hxs, hfs]
    exact ⟨h2.1.trans h1.1, h2.2.trans h1.2⟩

theorem killIfSome_state (o : Option Nat) (s : AppState) :
    ((killIfSome o) s).2.1 = s := by
  cases o <;> rfl

/-- Running `killIfSome` only appends the kill event of the session when
one is present. -/
theorem killIfSome_run (o : Option Nat) (st : AppState) :
    killIfSome o st =
      (.ok (), st, (o.map (fun sid => Event.killSession sid)).toList) := by
  cases o <;> rfl

/-- `removeWorktreeDirM` never changes the application state at all. -/
theorem removeWorktreeDirM_state (env : Env) (a b : String) (s : AppState) :
    ((removeWorktreeDirM env a b) s).2.1 = s := by
  unfold removeWorktreeDirM
  by_cases hex : env.path_exists b
  · cases hg : env.run_git_command a ["worktree", "remove", "--force", b] with
    | ok o =>
      simp [hex, hg, M.bind_def, M.bind, emitM, M.pure_def, M.pure]
    | error er =>
      by_cases hm : env.is_missing_worktree_error er
      · cases hr : env.remove_dir_all b <;>
          simp [hex, hg, hm, hr, removeDirM, M.bind_def, M.bind,
            emitM, M.pure_def, M.pure, throwM]
      · simp [hex, hg, hm, M.bind_def, M.bind, emitM, throwM]
  · rw [if_neg hex]
    rfl

/-- The per-child removal loop only touches sessions, the filesystem and
Git: the registry and the persisted list are preserved, whatever the
oracles answer and whether or not the loop fails. -/
theorem preservesWD_removeWorkspaceChildren (env : Env) (p : String) :
    ∀ cs : List WorkspaceEntry,
      PreservesWD (removeWorkspaceChildren env p cs) := by
  intro cs
  induction cs with
  | nil => exact fun s => ⟨rfl, rfl⟩
  | cons c rest ih =>
    exact preservesWD_bind (fun s => ⟨rfl, rfl⟩) (fun old =>
      preservesWD_bind
        (fun s => by rw [killIfSome_state old s]; exact ⟨rfl, rfl⟩)
        (fun _ =>
          preservesWD_bind
            (fun s => by rw [removeWorktreeDirM_state env p c.path s]
                         exact ⟨rfl, rfl⟩)
            (fun _ => ih)))

theorem mem_wsRemove {e : WorkspaceEntry} {m : List WorkspaceEntry}
    {i : String} : e ∈ wsRemove m i ↔ e ∈ m ∧ e.id ≠ i := by
  simp [wsRemove, List.mem_filter]

theorem mem_removeAll {cs : List WorkspaceEntry} {m : List WorkspaceEntry}
    {e : WorkspaceEntry}
    (h : e ∈ cs.foldl (fun acc c => wsRemove acc c.id) m) :
    e ∈ m ∧ ∀ c ∈ cs, e.id ≠ c.id := by
  induction cs generalizing m with
  | nil => simpa using h
  | cons c rest ih =>
    simp only [List.foldl] at h
    obtain ⟨h1, h2⟩ := ih h
    rw [mem_wsRemove] at h1
    refine ⟨h1.1, ?_⟩
    intro c2 hc2
    rcases List.mem_cons.mp hc2 with rfl | hc2
    · exact h1.2
    · exact h2 _ hc2

/-- Claim C7: whenever `remove_workspace` succeeds in local mode, the
resulting registry holds no entry whose parent_id references the removed
id (nor the removed entry itself), and the persisted list is exactly the
resulting registry — independently of which Git removals succeeded, hit
the missing-worktree fallback, or were skipped. -/
theorem remove_workspace_removes_all_children
    (env : Env) (s : AppState) (idA : String)
    (hrm : env.is_remote_mode = false)
    (hok : (remove_workspace env idA s).1 = .ok ()) :
    (∀ e ∈ (remove_workspace env idA s).2.1.workspaces,
        e.parent_id ≠ some idA ∧ e.id ≠ idA) ∧
    (remove_workspace env idA s).2.1.disk =
      (remove_workspace env idA s).2.1.workspaces := by
  cases hw : wsGet s.workspaces idA with
  | none =>
    exfalso
    revert hok
    simp [remove_workspace, M.bind_def, M.pure_def, M.bind, M.pure, getS,
      throwM, hrm, hw]
  | some entry =>
    cases hk : entry.kind.is_worktree with
    | true =>
      exfalso
      revert hok
      simp [remove_workspace, M.bind_def, M.pure_def, M.bind, M.pure, getS,
        throwM, hrm, hw, hk]
    | false =>
      rcases hloop : removeWorkspaceChildren env entry.path
          (s.workspaces.filter (fun w => decide (w.parent_id = some idA)))
          s with ⟨r1, s1, t1⟩
      have hpres := preservesWD_removeWorkspaceChildren env entry.path
        (s.workspaces.filter (fun w => decide (w.parent_id = some idA))) s
      rw [hloop] at hpres
      cases r1 with
      | error e1 =>
        exfalso
        revert hok
        simp [remove_workspace, M.bind_def, M.pure_def, M.bind, M.pure, getS,
          throwM, hrm, hw, hk, hloop]
      | ok u =>
        cases u
        cases hwws : env.write_workspaces
            ((s.workspaces.filter
                (fun w => decide (w.parent_id = some idA))).foldl
              (fun m c => wsRemove m c.id) (wsRemove s1.workspaces idA)) with
        | error er =>
          exfalso
          revert hok
          simp [remove_workspace, M.bind_def, M.pure_def, M.bind, M.pure,
            getS, modifyS, emitM, liftE, throwM, runGitIgnoreM, killIfSome_run,
            killM, removeSessionM, persistM, persistAttemptM, hrm, hw, hk,
            hloop, hwws]
        | ok u2 =>
          cases u2
          have hfin :
              (remove_workspace env idA s).2.1.workspaces =
                ((s.workspaces.filter
                    (fun w => decide (w.parent_id = some idA))).foldl
                  (fun m c => wsRemove m c.id) (wsRemove s1.workspaces idA)) ∧
              (remove_workspace env idA s).2.1.disk =
                ((s.workspaces.filter
                    (fun w => decide (w.parent_id = some idA))).foldl
                  (fun m c => wsRemove m c.id) (wsRemove s1.workspaces idA)) := by
            simp [remove_workspace, M.bind_def, M.pure_def, M.bind, M.pure,
              getS, modifyS, emitM, liftE, throwM, runGitIgnoreM, killIfSome_run,
              killM, removeSessionM, persistM, persistAttemptM, hrm, hw, hk,
              hloop, hwws]
          refine ⟨?_, hfin.2.trans hfin.1.symm⟩
          intro e he
          rw [hfin.1] at he
          obtain ⟨he1, he2⟩ := mem_removeAll he
          rw [mem_wsRemove] at he1
          have hmem : e ∈ s.workspaces := by
            have := he1.1
            rw [hpres.1] at this
            exact this
          refine ⟨?_, he1.2⟩
          intro hpar
          have hchild : e ∈ s.workspaces.filter
              (fun w => decide (w.parent_id = some idA)) :=
            List.mem_filter.mpr ⟨hmem, by simp [hpar]⟩
          exact (he2 e hchild) rfl

/-- Witness for the C7 theorem at a concrete input: removing the main
workspace "p" with one connected child worktree. -/
theorem remove_workspace_removes_all_children_concrete :
    (∀ e ∈ (remove_workspace env0 "p" stConn).2.1.workspaces,
        e.parent_id ≠ some "p" ∧ e.id ≠ "p") ∧
    (remove_workspace env0 "p" stConn).2.1.disk =
      (remove_workspace env0 "p" stConn).2.1.workspaces :=
  remove_workspace_removes_all_children env0 stConn "p" rfl (by decide)

/-- Looking up the modified id after `wsModify` yields the modified
entry, provided the update preserves the id. -/
theorem wsGet_wsModify (m : List WorkspaceEntry) (i : String)
    (f : WorkspaceEntry → WorkspaceEntry) (hf : ∀ x, (f x).id = x.id) :
    wsGet (wsModify m i f) i = (wsGet m i).map f := by
  induction m with
  | nil => rfl
  | cons a as ih =>
    simp only [wsGet, wsModify, List.map, List.find?] at ih ⊢
    by_cases h : a.id = i
    · simp [h, hf a]
    · simp [h, hf a, ih]

/-- Claim C10: `update_workspace_codex_bin` rewrites only the entry's
codex_bin field, leaves the session map exactly as it was (nothing is
spawned, killed or replaced), and its only effect is the persistence
write; when that write succeeds the persisted list equals the updated
registry. -/
theorem update_codex_bin_only_mutates_codex_bin
    (env : Env) (s : AppState) (idA : String) (cb : Option String)
    (e : WorkspaceEntry)
    (hrm : env.is_remote_mode = false)
    (hget : wsGet s.workspaces idA = some e) :
    (update_workspace_codex_bin env idA cb s).2.1.sessions = s.sessions ∧
    (update_workspace_codex_bin env idA cb s).2.1.workspaces =
      wsModify s.workspaces idA (fun x => { x with codex_bin := cb }) ∧
    (∃ ids, (update_workspace_codex_bin env idA cb s).2.2 =
      [Event.persist ids]) ∧
    (env.write_workspaces
        (wsModify s.workspaces idA (fun x => { x with codex_bin := cb })) =
          .ok () →
      (update_workspace_codex_bin env idA cb s).2.1.disk =
        wsModify s.workspaces idA (fun x => { x with codex_bin := cb })) := by
  have hlook := wsGet_wsModify s.workspaces idA
    (fun x => { x with codex_bin := cb }) (fun x => rfl)
  rw [hget] at hlook
  cases hw : env.write_workspaces
      (wsModify s.workspaces idA (fun x => { x with codex_bin := cb })) with
  | ok u =>
    cases u
    simp [update_workspace_codex_bin, persistM, persistAttemptM, M.bind_def,
      M.pure_def, M.bind, M.pure, getS, modifyS, emitM, liftE, throwM, hrm,
      hget, hlook, hw]
  | error er =>
    simp [update_workspace_codex_bin, persistM, persistAttemptM, M.bind_def,
      M.pure_def, M.bind, M.pure, getS, modifyS, emitM, liftE, throwM, hrm,
      hget, hlook, hw]

/-- Witness for the C10 theorem at a concrete input. -/
theorem update_codex_bin_only_mutates_codex_bin_concrete :
    (update_workspace_codex_bin env0 "w" (some "bin2") stConn).2.1.sessions =
      stConn.sessions ∧
    (update_workspace_codex_bin env0 "w" (some "bin2") stConn).2.1.workspaces =
      wsModify stConn.workspaces "w" (fun x => { x with codex_bin := some "bin2" }) ∧
    (∃ ids, (update_workspace_codex_bin env0 "w" (some "bin2") stConn).2.2 =
      [Event.persist ids]) ∧
    (env0.write_workspaces
        (wsModify stConn.workspaces "w"
          (fun x => { x with codex_bin := some "bin2" })) = .ok () →
      (update_workspace_codex_bin env0 "w" (some "bin2") stConn).2.1.disk =
        wsModify stConn.workspaces "w"
          (fun x => { x with codex_bin := some "bin2" })) :=
  update_codex_bin_only_mutates_codex_bin env0 stConn "w" (some "bin2")
    wtEntry rfl (by decide)

end CodexMonitor
